import Mathlib

/-!
Verification of the voice-agent relay backend.

Shallow embedding of:
* the voice-activity-detection (VAD) segmentation loop of
  `voice-agent/backend/src/index.ts` (`serverWs.on("message")` handler,
  `detectVoiceActivity`, `resetAudioState`);
* the upstream-message dispatch of
  `voice-agent/src/lib/multimodal-live-client.ts` (`receive`, senders,
  `_sendDirect`, `connect`/`disconnect`);
* the PCM16 ⇄ float sample conversions of `live-media-manager.js`
  (`convertPCM16LEToFloat32`, the `onaudioprocess` float→int16 step);
* the module-level socket wiring of the backend (one process-wide
  upstream `clientWs`, a single mutable `serverWs` slot).

Machine integers are modelled as `Int`/`Nat`; float samples are modelled
as exact rationals (`ℚ`), with truncation toward zero standing for the
JavaScript number→Int16Array element conversion.
-/

namespace VoiceAgent

/-! ### Frames and the VAD state

A frame is one media chunk's decoded bytes (`Buffer` in the source).
`AudioState` mirrors the backend's `audioState` object:
`{isRecording, buffer, silenceCount}`. -/

/-- One decoded audio chunk: a byte sequence (`Buffer.from(chunk.data, "base64")`). -/
abbrev Frame := List Nat

/-- The backend's mutable `audioState` record. -/
structure AudioState where
  isRecording : Bool
  buffer : List Frame
  silenceCount : Nat
  deriving Repr, DecidableEq

/-- Initial value of `audioState` in the source (lines 79–83). -/
def initialAudioState : AudioState :=
  { isRecording := false, buffer := [], silenceCount := 0 }

/-- Embedding of `resetAudioState` (source lines 107–111): the state every
flush or discard returns to. -/
def resetAudioState : AudioState := initialAudioState

/-- Threshold constant `SILENCE_THRESHOLD = 700`. -/
def SILENCE_THRESHOLD : Int := 700

/-- Threshold constant `MIN_SILENCE_FRAMES = 10`. -/
def MIN_SILENCE_FRAMES : Nat := 10

/-- Threshold constant `MIN_VOICE_FRAMES = 5`. -/
def MIN_VOICE_FRAMES : Nat := 5

/-- Little-endian byte pair → signed 16-bit value, as `Int16Array`
reinterpretation does. -/
def toInt16 (lo hi : Nat) : Int :=
  let v := lo % 256 + 256 * (hi % 256)
  if v < 32768 then (v : Int) else (v : Int) - 65536

/-- Reinterpret a byte buffer as 16-bit little-endian samples
(`new Int16Array(buffer.buffer)`); fails (the constructor throws a
`RangeError`, caught by the chunk loop) when the byte length is odd. -/
def bytesToInt16LE : List Nat → Option (List Int)
  | [] => some []
  | lo :: hi :: rest => (bytesToInt16LE rest).map (fun s => toInt16 lo hi :: s)
  | [_] => none

/-- Sum of squared samples, the `reduce` accumulator of `detectVoiceActivity`. -/
def sumSquares (samples : List Int) : Int :=
  (samples.map (fun s => s * s)).sum

/-- Embedding of `detectVoiceActivity` (source lines 91–104): `rms > SILENCE_THRESHOLD`
with `rms = sqrt(sumSquares / length)`.  Both sides of the comparison are
nonnegative, so squaring is exact: the boolean equals
`sumSquares > SILENCE_THRESHOLD² · length`.  An empty sample array gives
`NaN > 700 = false` in the source and `0 > 0 = false` here. -/
def detectVoiceActivity (samples : List Int) : Bool :=
  SILENCE_THRESHOLD * SILENCE_THRESHOLD * (samples.length : Int) < sumSquares samples

/-- One iteration of the chunk loop's VAD branch (source lines 332–359),
with the chunk's classification `voiced = detectVoiceActivity(buffer)`
passed in explicitly.  Returns the successor state and, when the silence
run reaches `MIN_SILENCE_FRAMES` with more than `MIN_VOICE_FRAMES`
buffered frames, the flushed buffer (the emitted utterance is
`Buffer.concat` of these frames, i.e. their join). -/
def vadIngest (voiced : Bool) (frame : Frame) (s : AudioState) :
    AudioState × Option (List Frame) :=
  if voiced then
    ({ isRecording := true, buffer := s.buffer ++ [frame], silenceCount := 0 }, none)
  else if s.isRecording then
    let s' : AudioState :=
      { s with silenceCount := s.silenceCount + 1, buffer := s.buffer ++ [frame] }
    if MIN_SILENCE_FRAMES ≤ s'.silenceCount then
      if MIN_VOICE_FRAMES < s'.buffer.length then
        (resetAudioState, some s'.buffer)
      else
        (resetAudioState, none)
    else
      (s', none)
  else
    (s, none)

/-- Run the VAD over a sequence of (classification, frame) pairs,
collecting every flushed utterance in order. -/
def runVad : List (Bool × Frame) → AudioState → AudioState × List (List Frame)
  | [], s => (s, [])
  | (v, f) :: rest, s =>
    let step := vadIngest v f s
    let tail := runVad rest step.1
    (tail.1, step.2.toList ++ tail.2)

/-- Run the VAD from the initial state. -/
def runVadFromInit (inputs : List (Bool × Frame)) : AudioState × List (List Frame) :=
  runVad inputs initialAudioState

/-- The bytes of an emitted utterance: `Buffer.concat(audioState.buffer)`. -/
def utteranceBytes (frames : List Frame) : List Nat := frames.flatten

/-! Definitions for the upstream message dispatch
(`multimodal-live-client.ts`, `MultimodalLiveClient.receive`). -/

/-- Inline blob of a content part: `{mimeType, data(base64)}`. -/
structure InlineData where
  mimeType : String
  data : String
  deriving Repr, DecidableEq

/-- A content `Part`: an optional inline blob and optional text. -/
structure Part where
  inlineData : Option InlineData := none
  text : Option String := none
  deriving Repr, DecidableEq

/-- The `serverContent` payload as the dispatch probes it: three
independently present signals — `interrupted` truthiness
(`isInterrupted`), presence of a boolean `turnComplete`
(`isTurnComplete`), presence of a `modelTurn` object (`isModelTurn`). -/
structure ServerContent where
  interrupted : Bool := false
  turnComplete : Option Bool := none
  modelTurn : Option (List Part) := none
  deriving Repr, DecidableEq

/-- An incoming upstream message, dispatched on which keys are present
(`toolCall`, `toolCallCancellation`, `setupComplete`, `serverContent`).
Tool-call payloads are opaque to the dispatch and modelled by ids. -/
structure LiveIncomingMessage where
  toolCall : Option Nat := none
  toolCallCancellation : Option Nat := none
  setupComplete : Bool := false
  serverContent : Option ServerContent := none
  deriving Repr, DecidableEq

/-- Events emitted by `MultimodalLiveClient.receive`.  An `audio` event
carries the base64 payload whose `base64ToArrayBuffer` decoding the
source hands to the listener. -/
inductive ClientEvent where
  | toolcall (id : Nat)
  | toolcallcancellation (id : Nat)
  | setupcomplete
  | interrupted
  | turncomplete
  | audio (data : String)
  | content (parts : List Part)
  deriving Repr, DecidableEq

/-- Audio-part test of the dispatch:
`p.inlineData?.mimeType.startsWith("audio/pcm")` (undefined, hence
false, when the part has no `inlineData`). -/
def isAudioPart (p : Part) : Bool :=
  match p.inlineData with
  | some d => d.mimeType.startsWith "audio/pcm"
  | none => false

/-- Events produced by the `modelTurn` branch of `receive` (source lines
191–220): audio parts are emitted as `audio` events in arrival order
(skipping a falsy, i.e. empty, base64 string); the remaining parts
(`difference(parts, audioParts)`, which is reference-difference over a
sublist and hence the complementary filter) are emitted as a single
`content` event only when any remain. -/
def modelTurnEvents (parts : List Part) : List ClientEvent :=
  let audioParts := parts.filter isAudioPart
  let base64s := audioParts.map (fun p => p.inlineData.map InlineData.data)
  let otherParts := parts.filter (fun p => ! isAudioPart p)
  let audioEvents := base64s.filterMap (fun b64 =>
    match b64 with
    | some b => if b = "" then none else some (ClientEvent.audio b)
    | none => none)
  audioEvents ++ if otherParts.isEmpty then [] else [ClientEvent.content otherParts]

/-- Embedding of `MultimodalLiveClient.receive` (source lines 157–224)
as the list of events it emits for one incoming message, in order:
`toolCall` and `toolCallCancellation` return early; `setupComplete`
emits and falls through; within `serverContent`, `interrupted` stops
processing of the message, `turnComplete` emits and falls through, and
`modelTurn` yields its audio/content events. -/
def receive (msg : LiveIncomingMessage) : List ClientEvent :=
  match msg.toolCall with
  | some tc => [ClientEvent.toolcall tc]
  | none =>
    match msg.toolCallCancellation with
    | some tcc => [ClientEvent.toolcallcancellation tcc]
    | none =>
      let setupEvents :=
        if msg.setupComplete then [ClientEvent.setupcomplete] else []
      match msg.serverContent with
      | none => setupEvents
      | some sc =>
        if sc.interrupted then
          setupEvents ++ [ClientEvent.interrupted]
        else
          let turnEvents :=
            if sc.turnComplete.isSome then [ClientEvent.turncomplete] else []
          let modelEvents :=
            match sc.modelTurn with
            | some parts => modelTurnEvents parts
            | none => []
          setupEvents ++ turnEvents ++ modelEvents

/-- A concrete message carrying both `turnComplete: true` and
`modelTurn` parts, used to instantiate the dispatch theorems. -/
def msgBothSignals : LiveIncomingMessage :=
  { serverContent := some
      { turnComplete := some true,
        modelTurn := some
          [{ inlineData := some { mimeType := "audio/pcm;rate=24000", data := "QQ==" } }] } }

/-! Definitions for the outbound senders of `MultimodalLiveClient`
(`sendRealtimeInput`, `sendToolResponse`, `send`, `_sendDirect`,
`connect`/`disconnect`). -/

/-- A `GenerativeContentBlob`: `{mimeType, data(base64)}` media chunk. -/
structure GenerativeBlob where
  mimeType : String
  data : String
  deriving Repr, DecidableEq

/-- One turn of `clientContent.turns`: `{role, parts}`. -/
structure ContentTurn where
  role : String
  parts : List Part
  deriving Repr, DecidableEq

/-- The JSON envelopes `_sendDirect` serializes and transmits.
Tool-response payloads are opaque to the sender and modelled by ids. -/
inductive OutboundEnvelope where
  | setup (config : Nat)
  | realtimeInput (mediaChunks : List GenerativeBlob)
  | toolResponse (functionResponses : Nat)
  | clientContent (turns : List ContentTurn) (turnComplete : Bool)
  deriving Repr, DecidableEq

/-- Connection-relevant state of a `MultimodalLiveClient`: the `ws`
field, `null` (`none`) before `connect` completes and again after
`disconnect`/close, non-null (`some ()`) while the socket is open. -/
structure MultimodalLiveClient where
  ws : Option Unit
  deriving Repr, DecidableEq

/-- A freshly constructed client: `public ws: WebSocket | null = null`. -/
def initialClient : MultimodalLiveClient := { ws := none }

/-- State reached by a successful `connect` (the open handler sets
`this.ws = ws`). -/
def connectOpen : MultimodalLiveClient := { ws := some () }

/-- Embedding of `disconnect` on the matching socket reference: sets
`this.ws = null`. -/
def disconnect (_c : MultimodalLiveClient) : MultimodalLiveClient := { ws := none }

/-- Embedding of `_sendDirect` (source lines 281–287): throws
`"WebSocket is not connected"` when `this.ws` is null, otherwise
serializes the request and transmits it. -/
def sendDirect (c : MultimodalLiveClient) (request : OutboundEnvelope) :
    Except String OutboundEnvelope :=
  match c.ws with
  | none => Except.error "WebSocket is not connected"
  | some _ => Except.ok request

/-- Embedding of `sendRealtimeInput(chunks)` (source lines 228–248). -/
def sendRealtimeInput (c : MultimodalLiveClient) (chunks : List GenerativeBlob) :
    Except String OutboundEnvelope :=
  sendDirect c (OutboundEnvelope.realtimeInput chunks)

/-- Embedding of `sendToolResponse(toolResponse)` (source lines 252–258). -/
def sendToolResponse (c : MultimodalLiveClient) (toolResponse : Nat) :
    Except String OutboundEnvelope :=
  sendDirect c (OutboundEnvelope.toolResponse toolResponse)

/-- Embedding of `send(parts, turnComplete)` (source lines 262–276):
wraps the parts into a single user turn. -/
def send (c : MultimodalLiveClient) (parts : List Part) (turnComplete : Bool) :
    Except String OutboundEnvelope :=
  sendDirect c
    (OutboundEnvelope.clientContent [{ role := "user", parts := parts }] turnComplete)

/-! Definitions for the backend's module-level socket wiring
(`backend/src/index.ts`): `clientWs` is a single upstream WebSocket
created once at module load (lines 404–412), and `serverWs` is a single
module-level mutable reference reassigned on every client upgrade
(lines 208 and 273). -/

/-- Observable connection wiring of the backend process: how many
upstream connections exist, which client the `serverWs` slot currently
holds, and which downstream clients have upgraded. -/
structure BackendWiring where
  upstreamConnections : Nat
  serverWsSlot : Option Nat
  downstreamClients : List Nat
  deriving Repr, DecidableEq

/-- Wiring at module load: the single `clientWs` upstream connection
already exists; no client has connected. -/
def initialWiring : BackendWiring :=
  { upstreamConnections := 1, serverWsSlot := none, downstreamClients := [] }

/-- Effect of one client WebSocket upgrade (source line 273):
`serverWs = await nodeUpgradeWebSocket(...)` overwrites the single slot;
no new upstream connection is created. -/
def acceptClient (w : BackendWiring) (c : Nat) : BackendWiring :=
  { w with serverWsSlot := some c,
           downstreamClients := w.downstreamClients ++ [c] }

/-! Definitions for the inbound batch handler
(`serverWs.on("message")`, source lines 295–366): the whole
`mediaChunks` batch is forwarded to `clientWs` verbatim before the
per-chunk VAD loop runs, and each chunk is processed inside a
`try`/`catch` whose `catch` does `continue`. -/

/-- An inbound media chunk as the validator sees it: the `data` and
`mimeType` fields may be absent (`"data" in chunk` / `"mimeType" in
chunk` checks). -/
structure MediaChunk where
  data : Option String := none
  mimeType : Option String := none
  deriving Repr, DecidableEq

/-- The `String.prototype.includes` test used by the mime check. -/
def strIncludes (s pattern : String) : Bool :=
  decide (pattern.toList <:+: s.toList)

/-- Process one chunk of the batch (source lines 311–364), parametrized
by the base64 decoder (`Buffer.from(·, "base64")`, an external
collaborator): an invalid shape, an unsupported mime type, a failing
decode, or an odd-length byte buffer (the `Int16Array` reinterpretation
throws) each skip the chunk — the surrounding `catch`/`continue` —
leaving the VAD state untouched; a valid chunk is classified and fed to
the VAD. -/
def processChunk (decode : String → Option Frame) (chunk : MediaChunk)
    (s : AudioState) : AudioState × Option (List Frame) :=
  match chunk.data, chunk.mimeType with
  | some data, some mime =>
    if strIncludes mime "audio/pcm" then
      match decode data with
      | some frame =>
        match bytesToInt16LE frame with
        | some samples => vadIngest (detectVoiceActivity samples) frame s
        | none => (s, none)
      | none => (s, none)
    else (s, none)
  | _, _ => (s, none)

/-- Run the per-chunk loop over a batch, collecting flushed utterances. -/
def runChunks (decode : String → Option Frame) :
    List MediaChunk → AudioState → AudioState × List (List Frame)
  | [], s => (s, [])
  | c :: rest, s =>
    let step := processChunk decode c s
    let tail := runChunks decode rest step.1
    (tail.1, step.2.toList ++ tail.2)

/-- Embedding of the whole message handler for one inbound batch: the
first component is the chunk batch forwarded verbatim to the upstream
socket (`clientWs.send`, line 308, executed before the VAD loop and not
gated on any VAD state); the second is the VAD loop's result. -/
def handleRealtimeBatch (decode : String → Option Frame)
    (chunks : List MediaChunk) (s : AudioState) :
    List MediaChunk × (AudioState × List (List Frame)) :=
  (chunks, runChunks decode chunks s)

/-! Definitions for the PCM sample conversions (`live-media-manager.js`).
Samples are modelled as exact rationals; the store into an `Int16Array`
element truncates the JavaScript number toward zero. -/

/-- Truncation toward zero, the number→integer conversion JavaScript
applies when storing into an `Int16Array` element. -/
def truncTowardZero (q : ℚ) : ℤ :=
  if 0 ≤ q then ⌊q⌋ else ⌈q⌉

/-- One sample of the microphone capture step
`pcm16[i] = inputData[i] * 0x7fff` (source lines 113–117). -/
def float32ToPCM16 (x : ℚ) : ℤ := truncTowardZero (x * 32767)

/-- One sample of `convertPCM16LEToFloat32`:
`float32Array[i] = inputArray[i] / 32768` (source lines 62–69). -/
def pcm16ToFloat32 (v : ℤ) : ℚ := (v : ℚ) / 32768

/-- Embedding of `convertPCM16LEToFloat32` over a whole sample list. -/
def convertPCM16LEToFloat32 (samples : List ℤ) : List ℚ :=
  samples.map pcm16ToFloat32

/-- Embedding of the `onaudioprocess` float→int16 loop over a whole
input buffer. -/
def captureToPCM16 (inputData : List ℚ) : List ℤ :=
  inputData.map float32ToPCM16

/-! ### VAD lemmas -/

/-- Any utterance flushed by a single ingest step has more than
`MIN_VOICE_FRAMES` frames: the flush branch is guarded by
`audioState.buffer.length > MIN_VOICE_FRAMES`. -/
theorem vadIngest_some_length {v : Bool} {f : Frame} {s : AudioState}
    {u : List Frame} (h : (vadIngest v f s).2 = some u) :
    MIN_VOICE_FRAMES < u.length := by
  by_cases hv : v = true
  · simp [vadIngest, hv] at h
  · by_cases hr : s.isRecording = true
    · by_cases hsil : MIN_SILENCE_FRAMES ≤ s.silenceCount + 1
      · by_cases hlen : MIN_VOICE_FRAMES < s.buffer.length + 1
        · simp [vadIngest, hv, hr, hsil, hlen] at h
          subst h
          simpa using hlen
        · simp [vadIngest, hv, hr, hsil, hlen] at h
      · simp [vadIngest, hv, hr, hsil] at h
    · simp [vadIngest, hv, hr] at h

/-- Every utterance emitted along any run has more than
`MIN_VOICE_FRAMES` frames. -/
theorem runVad_emit_length :
    ∀ (inputs : List (Bool × Frame)) (s : AudioState) (u : List Frame),
      u ∈ (runVad inputs s).2 → MIN_VOICE_FRAMES < u.length
  | [], _, _, h => by simp [runVad] at h
  | (v, f) :: rest, s, u, h => by
    simp only [runVad, List.mem_append] at h
    rcases h with h | h
    · rcases he : (vadIngest v f s).2 with _ | u'
      · rw [he] at h; simp at h
      · rw [he] at h; simp at h
        subst h
        exact vadIngest_some_length he
    · exact runVad_emit_length rest _ u h

/-- The reachable-state invariant of the VAD state machine. -/
def vadInv (s : AudioState) : Prop :=
  (s.isRecording = false → s.buffer = [] ∧ s.silenceCount = 0) ∧
  s.silenceCount ≤ s.buffer.length ∧
  s.silenceCount < MIN_SILENCE_FRAMES

/-- The invariant holds for the initial state. -/
theorem vadInv_initial : vadInv initialAudioState :=
  ⟨fun _ => ⟨rfl, rfl⟩, by simp [initialAudioState],
    by norm_num [initialAudioState, MIN_SILENCE_FRAMES]⟩

/-- One ingest step preserves the invariant. -/
theorem vadIngest_preserves_inv {s : AudioState} (hs : vadInv s)
    (v : Bool) (f : Frame) : vadInv (vadIngest v f s).1 := by
  obtain ⟨h1, h2, h3⟩ := hs
  unfold vadIngest
  dsimp only
  split_ifs with hv hr hsil hlen
  · exact ⟨by simp, by simp, by simp [MIN_SILENCE_FRAMES]⟩
  · exact vadInv_initial
  · exact vadInv_initial
  · refine ⟨by simp_all, ?_, ?_⟩
    · simpa using Nat.succ_le_succ h2
    · dsimp only
      omega
  · exact ⟨h1, h2, h3⟩

/-- The invariant holds after any run from an invariant-satisfying state. -/
theorem runVad_preserves_inv :
    ∀ (inputs : List (Bool × Frame)) (s : AudioState), vadInv s →
      vadInv (runVad inputs s).1
  | [], _, hs => hs
  | (v, f) :: rest, _, hs =>
    runVad_preserves_inv rest _ (vadIngest_preserves_inv hs v f)

/-! ### Claim theorems for the VAD -/

/-- C1 counterexample: feeding 3 voiced frames then 10 silent frames from
the initial state does emit an utterance (the claim says none is
emitted), because the flush guard compares the total buffered-frame count
(13, silent frames included) against `MIN_VOICE_FRAMES = 5`. -/
theorem c1_counterexample :
    (runVadFromInit (List.replicate 3 (true, ([0] : List Nat)) ++
      List.replicate 10 (false, ([1] : List Nat)))).2 ≠ [] := by
  decide

/-- C1 (amended): feeding 3 voiced frames then 10 silent frames from the
initial state emits exactly one utterance, consisting of all 13 buffered
frames in arrival order, and the state is reset to
`{isRecording := false, buffer := [], silenceCount := 0}` after the 10th
silent frame. -/
theorem c1_three_voiced_ten_silent
    (v1 v2 v3 s1 s2 s3 s4 s5 s6 s7 s8 s9 s10 : Frame) :
    runVadFromInit
      [(true, v1), (true, v2), (true, v3),
       (false, s1), (false, s2), (false, s3), (false, s4), (false, s5),
       (false, s6), (false, s7), (false, s8), (false, s9), (false, s10)] =
    (initialAudioState,
      [[v1, v2, v3, s1, s2, s3, s4, s5, s6, s7, s8, s9, s10]]) := by
  simp [runVadFromInit, runVad, vadIngest, initialAudioState, resetAudioState,
    MIN_SILENCE_FRAMES, MIN_VOICE_FRAMES]

/-- C4: feeding 6 voiced frames then 10 silent frames from the initial
state emits exactly one utterance whose bytes are the concatenation of
all 16 frames' bytes in arrival order, and the state is reset afterward. -/
theorem c4_six_voiced_ten_silent
    (v1 v2 v3 v4 v5 v6 s1 s2 s3 s4 s5 s6 s7 s8 s9 s10 : Frame) :
    runVadFromInit
      [(true, v1), (true, v2), (true, v3), (true, v4), (true, v5), (true, v6),
       (false, s1), (false, s2), (false, s3), (false, s4), (false, s5),
       (false, s6), (false, s7), (false, s8), (false, s9), (false, s10)] =
    (initialAudioState,
      [[v1, v2, v3, v4, v5, v6, s1, s2, s3, s4, s5, s6, s7, s8, s9, s10]]) ∧
    utteranceBytes
      [v1, v2, v3, v4, v5, v6, s1, s2, s3, s4, s5, s6, s7, s8, s9, s10] =
      v1 ++ v2 ++ v3 ++ v4 ++ v5 ++ v6 ++
        s1 ++ s2 ++ s3 ++ s4 ++ s5 ++ s6 ++ s7 ++ s8 ++ s9 ++ s10 := by
  refine ⟨?_, by simp [utteranceBytes]⟩
  simp [runVadFromInit, runVad, vadIngest, initialAudioState, resetAudioState,
    MIN_SILENCE_FRAMES, MIN_VOICE_FRAMES]

/-- C5: every utterance the VAD emits, over any input sequence started
from the initial state, contains at least `MIN_VOICE_FRAMES` frames; a
shorter utterance is never surfaced. -/
theorem c5_min_frames (inputs : List (Bool × Frame)) (u : List Frame)
    (h : u ∈ (runVadFromInit inputs).2) : MIN_VOICE_FRAMES ≤ u.length :=
  le_of_lt (runVad_emit_length inputs initialAudioState u h)

/-- C5 witness: the utterance emitted by 6 voiced + 10 silent frames has
at least `MIN_VOICE_FRAMES` frames. -/
theorem c5_min_frames_witness :
    MIN_VOICE_FRAMES ≤ (List.replicate 16 ([0] : List Nat)).length :=
  c5_min_frames
    (List.replicate 6 (true, [0]) ++ List.replicate 10 (false, [0]))
    (List.replicate 16 [0]) (by decide)

/-- C6: a silent frame arriving while `isRecording = false` leaves the
state unchanged and buffers nothing; in particular 10 silent frames from
the initial state yield no emission, no buffered frames, and
`isRecording` still false. -/
theorem c6_silent_while_not_recording (f g : Frame) (s : AudioState)
    (h : s.isRecording = false) :
    vadIngest false f s = (s, none) ∧
    runVadFromInit (List.replicate 10 (false, g)) = (initialAudioState, []) := by
  refine ⟨?_, rfl⟩
  simp [vadIngest, h]

/-- C6 witness: instantiation at a concrete frame and the initial state. -/
theorem c6_silent_while_not_recording_witness :
    vadIngest false [0] initialAudioState = (initialAudioState, none) :=
  (c6_silent_while_not_recording [0] [0] initialAudioState rfl).1

/-- C10: every state reachable from the initial state satisfies: if
`isRecording` is false the buffer is empty and `silenceCount` is 0;
`silenceCount` never exceeds the buffered-frame count; and at the end of
each step `silenceCount < MIN_SILENCE_FRAMES`, so the flush-and-reset
happens in the very step that reaches the silence threshold. -/
theorem c10_reachable_invariant (inputs : List (Bool × Frame)) :
    vadInv (runVadFromInit inputs).1 :=
  runVad_preserves_inv inputs initialAudioState vadInv_initial

/-! ### Claim theorems for the upstream dispatch -/

/-- C2: for a message with no tool-call keys whose `serverContent`
carries both a `turnComplete` boolean and `modelTurn` parts, `receive`
emits the turn-complete signal and the audio/content emissions of that
same message (the checks are not mutually exclusive); when the message
carries `interrupted`, processing stops early and no audio or content
event is emitted from it. -/
theorem c2_dispatch_not_exclusive (msg : LiveIncomingMessage)
    (sc : ServerContent) (b : Bool) (parts : List Part)
    (htc : msg.toolCall = none) (htcc : msg.toolCallCancellation = none)
    (hsc : msg.serverContent = some sc) :
    (sc.interrupted = false → sc.turnComplete = some b →
        sc.modelTurn = some parts →
      receive msg =
        (if msg.setupComplete then [ClientEvent.setupcomplete] else []) ++
          [ClientEvent.turncomplete] ++ modelTurnEvents parts ∧
      ClientEvent.turncomplete ∈ receive msg) ∧
    (sc.interrupted = true →
      receive msg =
        (if msg.setupComplete then [ClientEvent.setupcomplete] else []) ++
          [ClientEvent.interrupted] ∧
      (∀ d, ClientEvent.audio d ∉ receive msg) ∧
      (∀ ps, ClientEvent.content ps ∉ receive msg)) := by
  obtain ⟨mtc, mtcc, msu, mscField⟩ := msg
  dsimp only at htc htcc hsc
  subst htc
  subst htcc
  subst hsc
  obtain ⟨sint, stc, smt⟩ := sc
  constructor
  · intro hint htcb hmt
    dsimp only at hint htcb hmt
    subst hint
    subst htcb
    subst hmt
    have heq :
        receive ⟨none, none, msu, some ⟨false, some b, some parts⟩⟩ =
          (if msu = true then [ClientEvent.setupcomplete] else []) ++
            [ClientEvent.turncomplete] ++ modelTurnEvents parts := by
      simp [receive]
    refine ⟨heq, ?_⟩
    rw [heq]
    simp
  · intro hint
    dsimp only at hint
    subst hint
    have heq :
        receive ⟨none, none, msu, some ⟨true, stc, smt⟩⟩ =
          (if msu = true then [ClientEvent.setupcomplete] else []) ++
            [ClientEvent.interrupted] := by
      simp [receive]
    refine ⟨heq, ?_, ?_⟩ <;> intro x <;> rw [heq] <;>
      by_cases hsu : msu = true <;> simp [hsu]

/-- C2 witness: the concrete double-signal message yields the
turn-complete event. -/
theorem c2_dispatch_witness :
    ClientEvent.turncomplete ∈ receive msgBothSignals :=
  ((c2_dispatch_not_exclusive msgBothSignals
      { turnComplete := some true,
        modelTurn := some
          [{ inlineData := some { mimeType := "audio/pcm;rate=24000", data := "QQ==" } }] }
      true
      [{ inlineData := some { mimeType := "audio/pcm;rate=24000", data := "QQ==" } }]
      rfl rfl rfl).1 rfl rfl rfl).2

/-! ### Claim theorem for the session wiring -/

/-- C3 failing-input evaluation: after two distinct clients upgrade,
the process still holds exactly one upstream connection — it is shared
by both downstream clients, and the single `serverWs` slot retains only
the most recent client, contradicting the claimed 1:1 pairing. -/
theorem c3_upstream_shared_across_clients :
    (acceptClient (acceptClient initialWiring 1) 2).downstreamClients = [1, 2] ∧
    (acceptClient (acceptClient initialWiring 1) 2).upstreamConnections = 1 ∧
    (acceptClient (acceptClient initialWiring 1) 2).serverWsSlot = some 2 ∧
    (acceptClient (acceptClient initialWiring 1) 2).upstreamConnections ≠
      (acceptClient (acceptClient initialWiring 1) 2).downstreamClients.length := by
  refine ⟨rfl, rfl, rfl, ?_⟩
  decide

/-! ### Claim theorem for the inbound batch handler -/

/-- C7: the whole inbound batch is forwarded verbatim upstream
regardless of the VAD state, and a chunk that fails (missing `data` or
`mimeType`, a mime type that is not `audio/pcm`, or a failing base64
decode) is skipped in place: running the loop with the bad chunk in
front equals running it without the bad chunk — the rest of the batch
is still processed and no abort occurs. -/
theorem c7_forward_verbatim_and_skip_bad_chunks
    (decode : String → Option Frame) (chunks : List MediaChunk)
    (c : MediaChunk) (s : AudioState)
    (hbad : c.data = none ∨ c.mimeType = none ∨
      (∃ m, c.mimeType = some m ∧ strIncludes m "audio/pcm" = false) ∨
      (∃ d, c.data = some d ∧ decode d = none)) :
    (handleRealtimeBatch decode chunks s).1 = chunks ∧
    runChunks decode (c :: chunks) s = runChunks decode chunks s := by
  have hskip : processChunk decode c s = (s, none) := by
    obtain ⟨cd, cm⟩ := c
    rcases hbad with h | h | ⟨m, hm, hinc⟩ | ⟨d, hd, hdec⟩
    · dsimp only at h
      subst h
      cases cm <;> rfl
    · dsimp only at h
      subst h
      cases cd <;> rfl
    · dsimp only at hm
      subst hm
      cases cd with
      | none => rfl
      | some d => simp [processChunk, hinc]
    · dsimp only at hd
      subst hd
      cases cm with
      | none => rfl
      | some m =>
        by_cases hinc : strIncludes m "audio/pcm"
        · simp [processChunk, hinc, hdec]
        · simp [processChunk, hinc]
  refine ⟨rfl, ?_⟩
  simp [runChunks, hskip]

/-- C7 witness: a chunk with no fields is skipped and the (empty)
remainder of the batch is forwarded and processed unchanged. -/
theorem c7_forward_witness :
    (handleRealtimeBatch (fun _ => none) [] initialAudioState).1 = [] ∧
    runChunks (fun _ => none) [({} : MediaChunk)] initialAudioState =
      runChunks (fun _ => none) [] initialAudioState :=
  c7_forward_verbatim_and_skip_bad_chunks (fun _ => none) [] {}
    initialAudioState (Or.inl rfl)

/-! ### Claim theorem for the outbound senders -/

/-- C8: with `ws` null (before `connect` completes, initially, or after
`disconnect`) each of `sendRealtimeInput`, `sendToolResponse` and
`send` fails with the not-connected error and transmits nothing; with
the socket open each call transmits its corresponding envelope. -/
theorem c8_send_requires_open (c : MultimodalLiveClient)
    (chunks : List GenerativeBlob) (tr : Nat) (parts : List Part)
    (tc : Bool) :
    (c.ws = none →
      sendRealtimeInput c chunks = Except.error "WebSocket is not connected" ∧
      sendToolResponse c tr = Except.error "WebSocket is not connected" ∧
      send c parts tc = Except.error "WebSocket is not connected") ∧
    (c.ws = some () →
      sendRealtimeInput c chunks =
        Except.ok (OutboundEnvelope.realtimeInput chunks) ∧
      sendToolResponse c tr =
        Except.ok (OutboundEnvelope.toolResponse tr) ∧
      send c parts tc =
        Except.ok (OutboundEnvelope.clientContent
          [{ role := "user", parts := parts }] tc)) ∧
    initialClient.ws = none ∧ (disconnect c).ws = none ∧
    connectOpen.ws = some () := by
  obtain ⟨cw⟩ := c
  refine ⟨?_, ?_, rfl, rfl, rfl⟩
  · intro h
    dsimp only at h
    subst h
    exact ⟨rfl, rfl, rfl⟩
  · intro h
    dsimp only at h
    subst h
    exact ⟨rfl, rfl, rfl⟩

/-- C8 witness: the not-yet-connected client rejects a realtime send,
and the connected client transmits the realtime envelope. -/
theorem c8_send_witness :
    sendRealtimeInput initialClient [] =
      Except.error "WebSocket is not connected" ∧
    sendRealtimeInput connectOpen [] =
      Except.ok (OutboundEnvelope.realtimeInput []) :=
  ⟨((c8_send_requires_open initialClient [] 0 [] true).1 rfl).1,
   ((c8_send_requires_open connectOpen [] 0 [] true).2.1 rfl).1⟩

/-! ### Claim theorems for the PCM conversions -/

/-- C9 counterexample: at the float32-representable sample
`x = 65533/65536`, the PCM16 round trip errs by `3/65536`, which
exceeds the claimed bound of one quantization step `1/32768 = 2/65536`. -/
theorem c9_counterexample :
    ¬ |pcm16ToFloat32 (float32ToPCM16 (65533 / 65536 : ℚ)) -
        65533 / 65536| ≤ 1 / 32768 := by
  norm_num [pcm16ToFloat32, float32ToPCM16, truncTowardZero]
  rw [abs_of_nonneg (by norm_num : (0 : ℚ) ≤ 3 / 65536)]
  norm_num

/-- C9 (amended): for every sample `x` in `[-1, 1]`, the PCM16 round
trip recovers `x` to within two quantization steps:
`|pcm16ToFloat32 (float32ToPCM16 x) - x| < 2/32768`. -/
theorem c9_roundtrip_within_two_steps (x : ℚ) (h1 : -1 ≤ x) (h2 : x ≤ 1) :
    |pcm16ToFloat32 (float32ToPCM16 x) - x| < 2 / 32768 := by
  have htr : |((float32ToPCM16 x : ℤ) : ℚ) - x * 32767| < 1 := by
    unfold float32ToPCM16 truncTowardZero
    split_ifs with hq
    · have hfl : ((⌊x * 32767⌋ : ℤ) : ℚ) ≤ x * 32767 := Int.floor_le _
      have hfl2 : x * 32767 < ⌊x * 32767⌋ + 1 := Int.lt_floor_add_one _
      rw [abs_sub_comm, abs_of_nonneg (by linarith)]
      linarith
    · have hcl : x * 32767 ≤ ((⌈x * 32767⌉ : ℤ) : ℚ) := Int.le_ceil _
      have hcl2 : ((⌈x * 32767⌉ : ℤ) : ℚ) < x * 32767 + 1 := Int.ceil_lt_add_one _
      rw [abs_of_nonneg (by linarith)]
      linarith
  have hx : |x| ≤ 1 := abs_le.mpr ⟨h1, h2⟩
  have hnum : |((float32ToPCM16 x : ℤ) : ℚ) - x * 32767 - x| < 2 := by
    have h3 : |(((float32ToPCM16 x : ℤ) : ℚ) - x * 32767) + (-x)| ≤
        |((float32ToPCM16 x : ℤ) : ℚ) - x * 32767| + |(-x)| := abs_add _ _
    rw [abs_neg] at h3
    have h4 : ((float32ToPCM16 x : ℤ) : ℚ) - x * 32767 - x =
        (((float32ToPCM16 x : ℤ) : ℚ) - x * 32767) + (-x) := by ring
    rw [h4]
    linarith
  have heq : pcm16ToFloat32 (float32ToPCM16 x) - x =
      (((float32ToPCM16 x : ℤ) : ℚ) - x * 32767 - x) / 32768 := by
    unfold pcm16ToFloat32
    ring
  rw [heq, abs_div]
  rw [abs_of_pos (show (0 : ℚ) < 32768 by norm_num)]
  rw [div_lt_div_iff₀ (by norm_num) (by norm_num)]
  linarith

/-- C9 witness: the amended bound holds at the concrete sample `1/2`. -/
theorem c9_roundtrip_witness :
    |pcm16ToFloat32 (float32ToPCM16 (1 / 2 : ℚ)) - 1 / 2| < 2 / 32768 :=
  c9_roundtrip_within_two_steps (1 / 2) (by norm_num) (by norm_num)

end VoiceAgent
